import Mathlib

/-!
Shallow embedding of the wabbit front end of this repository: the AST data
model and unparser of model.py, the tree-walking evaluator of interp.py, the
scanner of tokenize.py, the driver of parse.py, and the Program container of
program.py.  Python exceptions are modelled with an explicit error type, the
text printed to standard output is threaded as an explicit string, and the
dynamic Python values that actually occur in this code (they are always
strings: the literal classes store their text, and the evaluator never parses
it) are modelled as String.
-/

namespace Wabbit

/-- Python exceptions raised by this code base. -/
inductive PyErr where
  | runtimeError (msg : String)
  | typeError (msg : String)
  | nameError (msg : String)
  deriving DecidableEq

/-- The two shapes the op attribute of a BinOp or UnaryOp takes in this
repository: a plain Python string such as + (the form interp.py compares
against with node.op == ...), or an instance of the Op class from model.py
(the form test_models.py builds, for example BinOp(Op(+), ..)).  The Op class
defines no __eq__, so an Op instance is never equal to a string. -/
inductive OpField where
  | str (s : String)
  | opNode (symbol : String)
  deriving DecidableEq

/-- The AST node classes defined in model.py: Integer, Float, Bool, Op,
BinOp, UnaryOp and PrintStatement.  Integer, Float and Bool store the literal
text of the token as a string (Integer.__init__ even asserts that the value
is a str). -/
inductive Node where
  | integer (value : String)
  | float (value : String)
  | bool (value : String)
  | op (symbol : String)
  | binOp (op : OpField) (left : Node) (right : Node)
  | unaryOp (op : OpField) (operand : Node)
  | printStatement (value : Node)
  deriving DecidableEq

/-- The Program container of program.py: source text, the model (None until a
parse succeeds) and the error flag. -/
structure Program where
  source : String
  model : Option Node
  have_errors : Bool
  deriving DecidableEq

/-- A wabbit runtime value as built by interpret_node: a pair of a type tag
such as int or float and the raw value.  Every raw value this interpreter
ever builds is a Python string (the literal branches return node.value, which
is the stored text, and the only arithmetic that succeeds is + on two such
strings), so the raw value is modelled as String. -/
abbrev TaggedValue := String × String

/-- What str(..) and an f-string produce for an op field: a plain string
formats as itself, an Op instance formats through Op.__repr__. -/
def op_field_str : OpField → String
  | .str s => s
  | .opNode symbol => ("Op(") ++ symbol ++ (")")

/-- The __repr__ of each model.py class, as used by the f-strings in the
error messages of interp.py and model.py. -/
def node_repr : Node → String
  | .integer v => ("Integer(") ++ v ++ (")")
  | .float v => ("Float(") ++ v ++ (")")
  | .bool v => ("Bool(") ++ v ++ (")")
  | .op symbol => ("Op(") ++ symbol ++ (")")
  | .binOp op l r =>
      ("BinOp(") ++ op_field_str op ++ (", ") ++ node_repr l ++ (", ") ++
        node_repr r ++ (")")
  | .unaryOp op operand =>
      ("UnaryOp(") ++ op_field_str op ++ (", ") ++ node_repr operand ++ (")")
  | .printStatement v => ("PrintStatement(") ++ node_repr v ++ (")")

/-- The comparison node.op == some operator string, as executed by the BinOp
branch of interpret_node: string against string compares by content, an Op
instance against a string is False because Op defines no __eq__. -/
def op_eq_str : OpField → String → Bool
  | .str s, t => s == t
  | .opNode _, _ => false

/-- Python + on the raw values of this interpreter (always strings):
concatenation. -/
def py_add (a b : String) : Except PyErr String := .ok (a ++ b)

/-- Python - on the raw values of this interpreter (always strings): a
TypeError. -/
def py_sub (_a _b : String) : Except PyErr String :=
  .error (.typeError ("unsupported operand type(s) for -: \x27str\x27 and \x27str\x27"))

/-- The TypeError message Python raises when the tuple unpacking
left_type, left_value = interpret_node(..) receives the None returned by the
PrintStatement branch. -/
def unpack_error_msg : String := ("cannot unpack non-iterable NoneType object")

/-- Lines 99 to 107 of interp.py, after both operands have been evaluated and
unpacked: raise on mismatched type tags; for int or float tags handle + and -
(the bare ... on line 106 is a no-op Ellipsis expression, so every other
operator falls through to the raise on line 107); every non-numeric tag also
reaches that raise. -/
def binop_result (op : OpField) (left_type left_value right_type right_value : String) :
    Except PyErr (Option TaggedValue) :=
  if left_type ≠ right_type then
    .error (.runtimeError ("Type error in binary operator"))
  else if left_type = ("int") ∨ left_type = ("float") then
    if op_eq_str op ("+") then
      match py_add left_value right_value with
      | .ok v => .ok (some (left_type, v))
      | .error e => .error e
    else if op_eq_str op ("-") then
      match py_sub left_value right_value with
      | .ok v => .ok (some (left_type, v))
      | .error e => .error e
    else .error (.runtimeError (("Unsupported operation ") ++ op_field_str op))
  else .error (.runtimeError (("Unsupported operation ") ++ op_field_str op))

/-- The outcome of interpret_node on one node: the text it printed, together
with either the returned value (None for the PrintStatement branch, a tagged
pair otherwise) or the exception it raised. -/
abbrev InterpOutcome := String × Except PyErr (Option TaggedValue)

/-- Sequencing of the BinOp branch of interpret_node: the left operand is
interpreted and unpacked first (an exception there propagates before the
right operand runs, so its output is absent), then the right operand, then
the operator logic. -/
def binop_node : InterpOutcome → InterpOutcome → OpField → InterpOutcome
  | (oL, .error e), _, _ => (oL, .error e)
  | (oL, .ok none), _, _ => (oL, .error (.typeError unpack_error_msg))
  | (oL, .ok (some _)), (oR, .error e), _ => (oL ++ oR, .error e)
  | (oL, .ok (some _)), (oR, .ok none), _ => (oL ++ oR, .error (.typeError unpack_error_msg))
  | (oL, .ok (some (lt, lv))), (oR, .ok (some (rt, rv))), op =>
      (oL ++ oR, binop_result op lt lv rt rv)

/-- Lines 112 to 117 of interp.py: what one print call of the PrintStatement
branch sends to standard output for a tagged value.  A char value is printed
with end set to the empty string, so no newline follows it; a bool value
prints the word true or false chosen by Python truthiness of the raw value
(for a string: non-empty); everything else is printed followed by the newline
that print appends by default. -/
def render_print (valuetype value : String) : String :=
  if valuetype = ("char") then value
  else if valuetype = ("bool") then
    (if value = ("") then ("false") else ("true")) ++ ("\n")
  else value ++ ("\n")

/-- Sequencing of the PrintStatement branch of interpret_node: interpret the
value, unpack it (None from a nested PrintStatement raises TypeError), print
it, and return None (the branch has no return statement). -/
def print_node : InterpOutcome → InterpOutcome
  | (o, .error e) => (o, .error e)
  | (o, .ok none) => (o, .error (.typeError unpack_error_msg))
  | (o, .ok (some (t, v))) => (o ++ render_print t v, .ok none)

/-- interpret_node of interp.py, lines 86 to 121.  The Integer and Float
branches return the stored literal text tagged int or float; the BinOp and
PrintStatement branches are factored into binop_node, binop_result and
print_node above; every other node (Bool, Op, UnaryOp) reaches the final
else branch and raises the RuntimeError built from the node repr. -/
def interpret_node : Node → InterpOutcome
  | .integer v => (("") , .ok (some (("int"), v)))
  | .float v => (("") , .ok (some (("float"), v)))
  | .binOp op l r => binop_node (interpret_node l) (interpret_node r) op
  | .printStatement v => print_node (interpret_node v)
  | n => (("") , .error (.runtimeError (("Can\x27t interpret ") ++ node_repr n)))

/-- interpret_program of interp.py: build a fresh Context and interpret
program.model (interpreting the None of an unparsed program reaches the else
branch of interpret_node). -/
def interpret_program (program : Program) : InterpOutcome :=
  match program.model with
  | some m => interpret_node m
  | none => (("") , .error (.runtimeError ("Can\x27t interpret None")))

/-- node_as_source applied to the op attribute of a BinOp or UnaryOp
(model.py lines 151 to 172): an Op instance matches the Op branch and yields
its symbol; a plain string matches no isinstance check and reaches the final
raise, whose f-string formats the string as itself. -/
def op_field_as_source : OpField → Except PyErr String
  | .opNode symbol => .ok symbol
  | .str s => .error (.runtimeError (("Can\x27t convert ") ++ s ++ (" to source")))

/-- node_as_source of model.py, lines 151 to 172, restricted to model nodes
(the Python function also accepts bare Python lists, which are not model
nodes).  There is no branch for Float, Bool or PrintStatement-free
constructs beyond those listed: Float and Bool nodes reach the final raise.
In the BinOp branch the f-string evaluates left, then op, then right. -/
def node_as_source : Node → Except PyErr String
  | .integer v => .ok v
  | .op symbol => .ok symbol
  | .binOp op l r => do
      let ls ← node_as_source l
      let ops ← op_field_as_source op
      let rs ← node_as_source r
      .ok (ls ++ (" ") ++ ops ++ (" ") ++ rs)
  | .unaryOp op operand => do
      let ops ← op_field_as_source op
      let os ← node_as_source operand
      .ok (ops ++ os)
  | .printStatement v => node_as_source v
  | n => .error (.runtimeError (("Can\x27t convert ") ++ node_repr n ++ (" to source")))

/-- to_source of model.py: node_as_source of program.model; the None of an
unparsed program reaches the final raise, with the f-string rendering None. -/
def to_source (program : Program) : Except PyErr String :=
  match program.model with
  | some m => node_as_source m
  | none => .error (.runtimeError ("Can\x27t convert None to source"))

/-- parse_source of parse.py, lines 110 to 115: its first statement evaluates
the global name statement, which is defined nowhere in the module (only
parse_statement is), so every call raises NameError before anything else
happens; the expect it would call next is equally undefined. -/
def parse_source : Except PyErr Node :=
  .error (.nameError ("name \x27statement\x27 is not defined"))

/-- parse_program of parse.py, lines 102 to 108: tokenize(program) only
creates a generator object, running none of the loop body, and then
parse_source() raises its NameError, so parsing fails identically for every
program. -/
def parse_program (_program : Program) : Except PyErr Node := parse_source

/-- A token of tokenize.py. -/
structure Token where
  type : String
  value : String
  lineno : Nat
  index : Nat
  deriving DecidableEq

/-- Python repr of a one character string, as interpolated by the illegal
character report.  The escapes relevant to this development are covered;
other characters appear verbatim between single quotes. -/
def py_char_repr (c : Char) : String :=
  if c = Char.ofNat 10 then ("\x27\\n\x27")
  else if c = Char.ofNat 9 then ("\x27\\t\x27")
  else if c = Char.ofNat 13 then ("\x27\\r\x27")
  else if c = Char.ofNat 92 then ("\x27\\\\\x27")
  else String.singleton (Char.ofNat 39) ++ String.singleton c ++ String.singleton (Char.ofNat 39)

/-- The while loop of tokenize (tokenize.py lines 88 to 93): the two bare ...
lines are no-op Ellipsis expressions and no yield inside the loop ever runs,
so each iteration only prints the illegal character report for the current
character and advances the index; after the loop the single EOF token is
yielded.  The result is the pair (tokens yielded, report lines printed), in
order. -/
def tokenize_loop : List Char → Nat → Nat → List Token × List String
  | [], lineno, n => ([Token.mk ("EOF") ("EOF") lineno n], [])
  | c :: rest, lineno, n =>
      let rest_result := tokenize_loop rest lineno (n + 1)
      (rest_result.1,
        (toString lineno ++ (": Illegal character ") ++ py_char_repr c) :: rest_result.2)

/-- tokenize of tokenize.py, lines 84 to 96, on the source text of a program:
the loop starts with lineno 1 and index 0. -/
def tokenize (source : String) : List Token × List String :=
  tokenize_loop source.toList 1 0

/-- A model.py object as Python sees it: an identity (the id) plus its
fields (the structural node).  No class in model.py defines __eq__, so ==
between two such objects falls back to object identity. -/
structure PyObj where
  id : Nat
  node : Node
  deriving DecidableEq

/-- Python == on two model objects: identity comparison, since no model.py
class overrides __eq__. -/
def py_eq (a b : PyObj) : Bool := a.id == b.id

/-- The method names bound by each class body of model.py.  The initializer
of Float is spelled __init (model.py line 79), so class Float does not define
__init__; the bodies of Node, Expression and Statement are a bare pass. -/
def class_own_methods : String → List String
  | "Integer" => [("__init__"), ("__repr__")]
  | "Float" => [("__init"), ("__repr__")]
  | "Bool" => [("__init__"), ("__repr__")]
  | "Op" => [("__init__"), ("__repr__")]
  | "BinOp" => [("__init__"), ("__repr__")]
  | "UnaryOp" => [("__init__"), ("__repr__")]
  | "PrintStatement" => [("__init__"), ("__repr__")]
  | _ => []

/-- The method resolution order of the two literal classes (object, whose
default rejecting initializer is modelled by the else branch below, is
left implicit). -/
def mro : String → List String
  | "Integer" => [("Integer"), ("Expression"), ("Node")]
  | "Float" => [("Float"), ("Expression"), ("Node")]
  | cls => [cls]

/-- Whether any class in the MRO of cls defines __init__. -/
def defines_dunder_init (cls : String) : Bool :=
  (mro cls).any (fun c => (class_own_methods c).contains ("__init__"))

/-- The Python call Float(s): type.__call__ finds no user __init__ (or
__new__) anywhere in the MRO, so the defaults inherited from object reject
the extra argument with TypeError and no instance storing s results. -/
def Float_construct (s : String) : Except PyErr Node :=
  if defines_dunder_init ("Float") then .ok (.float s)
  else .error (.typeError ("Float() takes no arguments"))

/-- The Python call Integer(s): Integer.__init__ runs, its assert
isinstance(value, str) holds for a string argument, and the text is stored. -/
def Integer_construct (s : String) : Except PyErr Node :=
  if defines_dunder_init ("Integer") then .ok (.integer s)
  else .error (.typeError ("Integer() takes no arguments"))

end Wabbit

namespace Wabbit

/-- Claim C1 (evidence of the code bug): the claim says that same tagged
numeric operands under one of + - * / evaluate to the operand tag with the
mathematically correct value, the literal text having been parsed into the
runtime numeric representation at evaluation time.  The interpreter never
parses the text: both operands of 2 + 3 evaluate to int tagged strings and +
concatenates them into the int tagged string 23, the operator * falls through
the Ellipsis no-op on line 106 to the Unsupported operation raise, and the
operator - applies Python subtraction to two strings and raises TypeError. -/
theorem c1_binop_on_int_literals_misbehaves :
    interpret_node (.binOp (.str ("+")) (.integer ("2")) (.integer ("3"))) =
      (("") , .ok (some (("int"), ("23"))))
    ∧ interpret_node (.binOp (.str ("*")) (.integer ("2")) (.integer ("3"))) =
      (("") , .error (.runtimeError ("Unsupported operation *")))
    ∧ interpret_node (.binOp (.str ("-")) (.integer ("2")) (.integer ("3"))) =
      (("") , .error (.typeError ("unsupported operand type(s) for -: \x27str\x27 and \x27str\x27"))) :=
  ⟨rfl, rfl, rfl⟩

/-- Claim C2 (evidence of the code bug): the claim says || with a left
operand evaluating to bool true short-circuits, never evaluating the right
operand.  The interpreter evaluates both operands of every BinOp
unconditionally and handles neither Bool literals nor || at all: on the
example of the spec, true || (1/0 == 0), it raises while evaluating the left
operand, because Bool nodes reach the final else branch of interpret_node. -/
theorem c2_or_short_circuit_example_raises :
    interpret_node (.binOp (.str ("||")) (.bool ("true"))
        (.binOp (.str ("==")) (.binOp (.str ("/")) (.integer ("1")) (.integer ("0")))
          (.integer ("0")))) =
      (("") , .error (.runtimeError ("Can\x27t interpret Bool(true)"))) :=
  rfl

/-- Claim C3: whenever the two operands of a BinOp evaluate to values whose
type tags differ, interpretation raises the type mismatch RuntimeError of
line 100 of interp.py and produces no coerced result. -/
theorem c3_mismatched_tags_raise (op : OpField) (l r : Node) (lt rt lv rv oL oR : String)
    (hl : interpret_node l = (oL, .ok (some (lt, lv))))
    (hr : interpret_node r = (oR, .ok (some (rt, rv))))
    (hne : lt ≠ rt) :
    interpret_node (.binOp op l r) =
      (oL ++ oR, .error (.runtimeError ("Type error in binary operator"))) := by
  simp only [interpret_node]
  rw [hl, hr]
  simp [binop_node, binop_result, hne]

/-- Witness for claim C3 at the concrete program 2 + 3.5. -/
theorem c3_mismatched_tags_raise_witness :
    interpret_node (.binOp (.str ("+")) (.integer ("2")) (.float ("3.5"))) =
      (("") ++ (""), .error (.runtimeError ("Type error in binary operator"))) :=
  c3_mismatched_tags_raise (.str ("+")) (.integer ("2")) (.float ("3.5")) ("int") ("float")
    ("2") ("3.5") ("") ("") rfl rfl (by decide)

/-- Claim C4 (counterexample): the claim says every print, regardless of the
tag of the value, ends its output with its own implicit newline; but the char
branch of the PrintStatement code prints with end set to the empty string, so
the output for a char tagged value a is exactly a, whose last character is
not the newline (code point 10). -/
theorem c4_char_print_lacks_newline :
    render_print ("char") ("a") = ("a")
    ∧ (render_print ("char") ("a")).data.getLast? ≠ some (Char.ofNat 10) :=
  ⟨rfl, by decide⟩

/-- Claim C4 as amended: interpreting a PrintStatement whose value evaluates
to a tagged value appends exactly the rendering of that value to the output
and returns None, where a bool tagged value renders as the word true or false
chosen by Python truthiness of the raw value followed by a newline, a char
tagged value renders as its raw text with no trailing newline, and every
other tag (including int and float, whose raw value is the literal text)
renders as that text followed by a newline. -/
theorem c4_print_rendering_amended (t v : String) (n : Node) (o : String)
    (h : interpret_node n = (o, .ok (some (t, v)))) :
    interpret_node (.printStatement n) = (o ++ render_print t v, .ok none)
    ∧ render_print ("bool") v = (if v = ("") then ("false") else ("true")) ++ ("\n")
    ∧ render_print ("char") v = v
    ∧ (t ≠ ("char") ∧ t ≠ ("bool") → render_print t v = v ++ ("\n")) := by
  refine ⟨?_, ?_, ?_, ?_⟩
  · simp only [interpret_node]
    rw [h]
    simp [print_node]
  · simp [render_print]
  · simp [render_print]
  · rintro ⟨h1, h2⟩
    simp [render_print, h1, h2]

/-- Witness for the amended claim C4 at the concrete statement print 5. -/
theorem c4_print_rendering_amended_witness :
    interpret_node (.printStatement (.integer ("5"))) =
        (("") ++ render_print ("int") ("5"), .ok none)
    ∧ render_print ("bool") ("5") =
        (if ("5" : String) = ("") then ("false") else ("true")) ++ ("\n")
    ∧ render_print ("char") ("5") = ("5")
    ∧ (("int" : String) ≠ ("char") ∧ ("int" : String) ≠ ("bool") →
        render_print ("int") ("5") = ("5") ++ ("\n")) :=
  c4_print_rendering_amended ("int") ("5") (.integer ("5")) ("") rfl

/-- Claim C5: a division BinOp whose operands both evaluate to int tagged
values, the right one carrying the value zero, raises a RuntimeError (the
operator / is not among the handled operators + and -, so line 107 of
interp.py raises Unsupported operation; integer division never yields a
silent result). -/
theorem c5_int_division_by_zero_raises (l r : Node) (lv oL oR : String)
    (hl : interpret_node l = (oL, .ok (some (("int"), lv))))
    (hr : interpret_node r = (oR, .ok (some (("int"), ("0"))))) :
    interpret_node (.binOp (.str ("/")) l r) =
      (oL ++ oR, .error (.runtimeError ("Unsupported operation /"))) := by
  simp only [interpret_node]
  rw [hl, hr]
  simp [binop_node, binop_result, op_eq_str, op_field_str]

/-- Witness for claim C5 at the concrete program 7 / 0. -/
theorem c5_int_division_by_zero_raises_witness :
    interpret_node (.binOp (.str ("/")) (.integer ("7")) (.integer ("0"))) =
      (("") ++ (""), .error (.runtimeError ("Unsupported operation /"))) :=
  c5_int_division_by_zero_raises (.integer ("7")) (.integer ("0")) ("7") ("") ("") rfl rfl

/-- Claim C6 (evidence of the code bug): the claim says parsing the textual
rendering produced by the unparser yields back a structurally equal AST.  The
unparser renders BinOp(Op(+), Integer(2), Integer(3)) as the text 2 + 3, but
parse_program raises NameError on every input, because the first statement of
parse_source calls the global name statement, which the module never
defines. -/
theorem c6_reparse_of_unparse_raises :
    node_as_source (.binOp (.opNode ("+")) (.integer ("2")) (.integer ("3"))) =
      .ok ("2 + 3")
    ∧ parse_program (Program.mk ("2 + 3") none false) =
      .error (.nameError ("name \x27statement\x27 is not defined")) :=
  ⟨rfl, rfl⟩

/-- Claim C7 (counterexample): the claim says two nodes of the same variant
with equal fields compare equal; but no model.py class defines __eq__, so
Python == compares object identity, and two distinct Integer instances
storing the same text compare unequal although their fields are equal. -/
theorem c7_equal_fields_not_python_equal :
    (PyObj.mk 0 (.integer ("2"))).node = (PyObj.mk 1 (.integer ("2"))).node
    ∧ py_eq (PyObj.mk 0 (.integer ("2"))) (PyObj.mk 1 (.integer ("2"))) = false :=
  ⟨rfl, rfl⟩

/-- Claim C7 as amended: two model objects with equal fields are
behaviorally interchangeable, interpretation and unparsing give the same
results for both, but Python == on them is identity comparison, so distinct
instances with equal fields need not compare equal. -/
theorem c7_interchangeability_amended (a b : PyObj) (h : a.node = b.node) :
    interpret_node a.node = interpret_node b.node
    ∧ node_as_source a.node = node_as_source b.node := by
  rw [h]
  exact ⟨rfl, rfl⟩

/-- Witness for the amended claim C7 at two distinct objects both holding
Integer(2). -/
theorem c7_interchangeability_amended_witness :
    interpret_node (PyObj.mk 0 (.integer ("2"))).node =
        interpret_node (PyObj.mk 1 (.integer ("2"))).node
    ∧ node_as_source (PyObj.mk 0 (.integer ("2"))).node =
        node_as_source (PyObj.mk 1 (.integer ("2"))).node :=
  c7_interchangeability_amended (PyObj.mk 0 (.integer ("2"))) (PyObj.mk 1 (.integer ("2"))) rfl

/-- Helper for claim C8: the loop of tokenize yields exactly one token, the
EOF sentinel carrying the final index, and prints one illegal character
report per input character. -/
theorem tokenize_loop_spec (cs : List Char) (lineno n : Nat) :
    (tokenize_loop cs lineno n).1 = [Token.mk ("EOF") ("EOF") lineno (n + cs.length)]
    ∧ (tokenize_loop cs lineno n).2.length = cs.length := by
  induction cs generalizing n with
  | nil => simp [tokenize_loop]
  | cons c rest ih =>
      refine ⟨?_, ?_⟩
      · rw [tokenize_loop]
        simp [(ih (n + 1)).1]
        omega
      · rw [tokenize_loop]
        simp [(ih (n + 1)).2]

/-- Claim C8: for every finite source text, tokenize terminates with a finite
token sequence ended by exactly one EOF sentinel (here the sequence is
exactly that sentinel), and every character it cannot form a token from (in
this code, every character) is reported by one printed message and skipped
without aborting the scan, the sentinel still being emitted. -/
theorem c8_tokenize_single_eof_sentinel (source : String) :
    (tokenize source).1 = [Token.mk ("EOF") ("EOF") 1 source.toList.length]
    ∧ (tokenize source).2.length = source.toList.length := by
  have h := tokenize_loop_spec source.toList 1 0
  simpa [tokenize] using h

/-- Claim C9: the initializer of the Float class is spelled __init instead of
__init__, so instantiating Float with any textual argument raises TypeError
and no Float node storing that text can be built through the intended
interface; for contrast, Integer with the same argument succeeds and stores
the text. -/
theorem c9_Float_constructor_always_fails (s : String) :
    Float_construct s = .error (.typeError ("Float() takes no arguments"))
    ∧ Integer_construct s = .ok (.integer s) :=
  ⟨rfl, rfl⟩

/-- Claim C10: interpret_node handles only Integer, Float, BinOp and
PrintStatement; every Bool, Op or UnaryOp node falls into the final else
branch and raises the RuntimeError built from the repr of the node. -/
theorem c10_unhandled_node_kinds_raise (s symbol : String) (op : OpField) (operand : Node) :
    interpret_node (.bool s) =
      (("") , .error (.runtimeError (("Can\x27t interpret ") ++ node_repr (.bool s))))
    ∧ node_repr (.bool s) = ("Bool(") ++ s ++ (")")
    ∧ interpret_node (.op symbol) =
      (("") , .error (.runtimeError (("Can\x27t interpret ") ++ node_repr (.op symbol))))
    ∧ interpret_node (.unaryOp op operand) =
      (("") , .error (.runtimeError (("Can\x27t interpret ") ++ node_repr (.unaryOp op operand)))) :=
  ⟨rfl, rfl, rfl, rfl⟩

end Wabbit
